import Mathlib

/-!
Verification of the `document_processor` package
(`src/document_processor/processor.py`) against its specification.

The Python code is shallowly embedded:
* Python exceptions become an explicit `PyError` error type; a function that
  may raise returns `Except PyError α`.
* `None` soft-failure results become `Option α` inside the `.ok` branch.
* The external PDF library (PyPDF2) is a black box: a `PdfReader` is a record
  of the data the code actually reads from it (a `pages` list and an optional
  `metadata` dictionary); each page carries the outcome of `extract_text` and
  its embedded images; each image carries the outcome of writing its bytes.
* The filesystem is a state `FS` (the list of written files) threaded through
  the functions that write; `print` diagnostics are collected in a log list.
-/

namespace DocumentProcessor

/-- Python exception values that the code under `src/` can raise or catch.
`imageExtractionError` - Modelled from the spec: `ImageExtractionError` is
declared in `src/document_processor/exceptions.py`, which is not under `src/`;
per the spec it is "a distinct, catchable error wrapping the underlying I/O
cause", i.e. an `Exception` subclass carrying a message, which is how it is
modelled here (it is caught by the `except Exception` handler). -/
inductive PyError where
  | fileNotFoundError (msg : String)
  | valueError (msg : String)
  | typeError (msg : String)
  | attributeError (msg : String)
  | indexError (msg : String)
  | pdfReadError (msg : String)
  | osError (msg : String)
  | imageExtractionError (msg : String)
  deriving DecidableEq, Repr

/-- The message carried by a Python exception (used when it is formatted
into a diagnostic string by `print(f"... {e}")`). -/
def PyError.msg : PyError → String
  | .fileNotFoundError m => m
  | .valueError m => m
  | .typeError m => m
  | .attributeError m => m
  | .indexError m => m
  | .pdfReadError m => m
  | .osError m => m
  | .imageExtractionError m => m

/-- The `DocumentInformation` dictionary PyPDF2 exposes as `reader.metadata`:
each field is individually optional (`data.title` etc. may be `None`). -/
structure DocInfo where
  title : Option String
  author : Option String
  subject : Option String
  producer : Option String
  creator : Option String
  deriving DecidableEq, Repr

/-- One embedded image of a page, as iterated by `page.images`:
its original `name`, its raw `data` bytes (abstracted to a string), and
`writeErr`: `none` when writing its bytes to the storage directory succeeds,
`some cause` when the write raises an I/O error with that cause message
(the filesystem's behaviour at this write, resolved per image). -/
structure PdfImage where
  name : String
  data : String
  writeErr : Option String
  deriving DecidableEq, Repr

deriving instance DecidableEq for Except

/-- One page of a decoded document, as used by the code:
`extract_text` is the outcome of `page.extract_text()` (`.error m` when the
library raises with message `m`), `images` the embedded images in document
order. -/
structure PdfPage where
  extract_text : Except String String
  images : List PdfImage
  deriving DecidableEq, Repr

/-- A decoded PDF document handle (`PdfReader`): the ordered `pages` and the
optional `metadata` dictionary (`reader.metadata` is `None` when the document
exposes no metadata dictionary). -/
structure PdfReader where
  pages : List PdfPage
  metadata : Option DocInfo
  deriving DecidableEq, Repr

/-- The environment the functions run against: which paths exist on the
filesystem, and what `PdfReader(path)` yields for an existing path
(`.error m`: the decode step raises with message `m`). -/
structure Env where
  fsExists : String → Bool
  decode : String → Except String PdfReader

/-- The filesystem state written by the image extractor: the files on disk,
as `(path, bytes)` pairs in the order they were written. -/
structure FS where
  files : List (String × String)
  deriving DecidableEq, Repr

/-- The argument of the polymorphic entry points (`Path | PdfReader`, and the
`None` value the soft-fail policy feeds back in). -/
inductive DocArg where
  | path (p : String)
  | reader (r : PdfReader)
  | noneV
  deriving DecidableEq, Repr

/-- The metadata dictionary built by `get_document_meta_data` (keys
`num_pages`, `title`, `author`, `subject`, `producer`, `creator`) with the
`page` key that `extract_data_from_page` later assigns. -/
structure MetaData where
  num_pages : Nat
  title : Option String
  author : Option String
  subject : Option String
  producer : Option String
  creator : Option String
  page : Option Int
  deriving DecidableEq, Repr

/-- `get_document(document_path)`: return the path if it exists, else raise
`FileNotFoundError(f"File {document_path} not found")`. (The `str → Path`
conversion is identity in this model.) -/
def get_document (env : Env) (document_path : String) : Except PyError String :=
  if env.fsExists document_path then .ok document_path
  else .error (.fileNotFoundError ("File " ++ document_path ++ " not found"))

/-- `read_document(document_path)`: resolve the path with `get_document`
(its `FileNotFoundError` propagates), then `PdfReader(path)`; a decode error
is caught, printed as `Error reading document: {e}` and converted to `None`.
Returns (printed diagnostics, outcome). -/
def read_document (env : Env) (document_path : String) :
    List String × Except PyError (Option PdfReader) :=
  match get_document env document_path with
  | .error e => ([], .error e)
  | .ok p =>
    match env.decode p with
    | .error e => (["Error reading document: " ++ e], .ok none)
    | .ok reader => ([], .ok (some reader))

/-- The dictionary-building tail of `get_document_meta_data` once `reader`
is known not to be `None`: `data = reader.metadata`; then
`meta_data['num_pages'] = len(reader.pages)` and `meta_data['title'] =
data.title` etc. — when `reader.metadata` is `None`, `data.title` raises
`AttributeError` on the `NoneType`. -/
def meta_from_reader (reader : PdfReader) : Except PyError MetaData :=
  match reader.metadata with
  | none =>
    .error (.attributeError "'NoneType' object has no attribute 'title'")
  | some data =>
    .ok { num_pages := reader.pages.length
          title := data.title
          author := data.author
          subject := data.subject
          producer := data.producer
          creator := data.creator
          page := none }

/-- `get_document_meta_data(document)`: a `Path` argument goes through
`get_document` and `read_document`; anything else is used as the reader
directly. A `None` reader yields `None`; otherwise the metadata dictionary
is built by `meta_from_reader`. Returns (printed diagnostics, outcome). -/
def get_document_meta_data (env : Env) (document : DocArg) :
    List String × Except PyError (Option MetaData) :=
  match document with
  | .path p =>
    match get_document env p with
    | .error e => ([], .error e)
    | .ok p' =>
      let lr := read_document env p'
      match lr.2 with
      | .error e => (lr.1, .error e)
      | .ok none => (lr.1, .ok none)
      | .ok (some reader) =>
        match meta_from_reader reader with
        | .error e => (lr.1, .error e)
        | .ok md => (lr.1, .ok (some md))
  | .noneV => ([], .ok none)
  | .reader r =>
    match meta_from_reader r with
    | .error e => ([], .error e)
    | .ok md => ([], .ok (some md))

/-- The filename `storage_path / f"{count}_{image.name}"` used by
`extract_image`. -/
def image_path (storage_path : String) (count : Nat) (name : String) : String :=
  storage_path ++ "/" ++ toString count ++ "_" ++ name

/-- The `for image_file_object in page.images:` loop of `extract_image`:
write each image's bytes to `storage_path / f"{count}_{name}"`, appending the
path to `images` and incrementing `count` on success; a failed write raises
`ImageExtractionError(f"Error extracting image: {e}")` at once, leaving the
files already written on disk. -/
def extract_image_loop (storage_path : String) :
    List PdfImage → Nat → FS → List String → FS × Except PyError (List String)
  | [], _, fs, images => (fs, .ok images.reverse)
  | img :: rest, count, fs, images =>
    let p := image_path storage_path count img.name
    match img.writeErr with
    | some cause =>
      (fs, .error (.imageExtractionError ("Error extracting image: " ++ cause)))
    | none =>
      extract_image_loop storage_path rest (count + 1)
        { files := fs.files ++ [(p, img.data)] } (p :: images)

/-- `extract_image(page, storage_path)`: run the loop with `count = 0` and
empty `images`, returning the written paths in extraction order. -/
def extract_image (page : PdfPage) (storage_path : String) (fs : FS) :
    FS × Except PyError (List String) :=
  extract_image_loop storage_path page.images 0 fs []

/-- The `try:` block of `extract_data_from_page` (0-based index `pn` already
validated, `reader` a real handle, `meta_data` already built): index
`reader.pages[pn]` (an out-of-range index raises `IndexError`), run
`page.extract_text()`, then `extract_image`; any exception is caught, printed
as `Error extracting text: {e}` and converted to `None`. -/
def extract_try_block (reader : PdfReader) (pn : Nat) (storage_path : String)
    (meta_data : MetaData) (fs : FS) :
    FS × List String × Except PyError (Option (String × List String × MetaData)) :=
  match reader.pages[pn]? with
  | none =>
    (fs, ["Error extracting text: " ++ (PyError.indexError "list index out of range").msg],
      .ok none)
  | some page =>
    match page.extract_text with
    | .error e => (fs, ["Error extracting text: " ++ e], .ok none)
    | .ok text =>
      let fi := extract_image page storage_path fs
      match fi.2 with
      | .error e => (fi.1, ["Error extracting text: " ++ e.msg], .ok none)
      | .ok images => (fi.1, [], .ok (some (text, images, meta_data)))

/-- `extract_data_from_page(reader, page_number, storage_path)`:
`page_number -= 1`; a now-negative index raises `ValueError`; a `None`
reader returns `None`; a `Path` reader goes through `read_document`
(its `FileNotFoundError` propagates); then
`meta_data = get_document_meta_data(reader)` — a `None` dictionary makes
`meta_data['page'] = page_number + 1` raise `TypeError` — and finally the
`try:` block. Returns (filesystem, printed diagnostics, outcome). -/
def extract_data_from_page (env : Env) (reader : DocArg) (page_number : Int)
    (storage_path : String) (fs : FS) :
    FS × List String × Except PyError (Option (String × List String × MetaData)) :=
  let pn := page_number - 1
  if pn < 0 then
    (fs, [], .error (.valueError "Page number should be greater than 0"))
  else
    match reader with
    | .noneV => (fs, [], .ok none)
    | .path p =>
      let lr := read_document env p
      match lr.2 with
      | .error e => (fs, lr.1, .error e)
      | .ok none =>
        -- `get_document_meta_data(None)` returns `None`, so
        -- `meta_data['page'] = page_number + 1` raises `TypeError`.
        (fs, lr.1,
          .error (.typeError "'NoneType' object does not support item assignment"))
      | .ok (some r) =>
        match meta_from_reader r with
        | .error e => (fs, lr.1, .error e)
        | .ok md =>
          let res := extract_try_block r pn.toNat storage_path
            { md with page := some (pn + 1) } fs
          (res.1, lr.1 ++ res.2.1, res.2.2)
    | .reader r =>
      match meta_from_reader r with
      | .error e => (fs, [], .error e)
      | .ok md =>
        extract_try_block r pn.toNat storage_path
          { md with page := some (pn + 1) } fs

/-! ### Expected outcomes of the image extractor, and concrete test fixtures -/

/-- The files the image extractor is expected to write for an image list,
starting at sequence number `k`: `(storage_path/"{i}_{name_i}", data_i)` in
document order. -/
def expected_image_files (storage_path : String) :
    Nat → List PdfImage → List (String × String)
  | _, [] => []
  | k, img :: rest =>
    (image_path storage_path k img.name, img.data) ::
      expected_image_files storage_path (k + 1) rest

/-- The paths the image extractor is expected to return, starting at
sequence number `k`. -/
def expected_image_paths (storage_path : String) (k : Nat)
    (imgs : List PdfImage) : List String :=
  (expected_image_files storage_path k imgs).map Prod.fst

/-- A concrete environment: only `doc.pdf` exists, and decoding it fails
with message `bad xref`. -/
def env_decode_fail : Env :=
  { fsExists := fun p => p == "doc.pdf", decode := fun _ => .error "bad xref" }

/-- Dictionary for the specification's metadata example. -/
def example_info : DocInfo :=
  { title := some "Example Title", author := some "Author Name"
    subject := some "Example Subject", producer := some "PDF Producer"
    creator := some "PDF Creator" }

/-- A page with successful text extraction and no images. -/
def plain_page : PdfPage := { extract_text := .ok "hello", images := [] }

/-- A 10-page document carrying the specification's example metadata. -/
def example_reader : PdfReader :=
  { pages := List.replicate 10 plain_page, metadata := some example_info }

/-- The specification's first example image; writing it succeeds. -/
def img1 : PdfImage := { name := "img1.png", data := "D1", writeErr := none }

/-- The specification's second example image; writing it succeeds. -/
def img2 : PdfImage := { name := "img2.png", data := "D2", writeErr := none }

/-- The second example image when the storage directory has become
read-only: writing it fails. -/
def img2_bad : PdfImage :=
  { name := "img2.png", data := "D2", writeErr := some "read-only file system" }

/-- A page with the two example images, both writable. -/
def two_image_page : PdfPage := { extract_text := .ok "t", images := [img1, img2] }

/-- A page whose second image fails to write. -/
def bad_write_page : PdfPage := { extract_text := .ok "t", images := [img1, img2_bad] }

/-- A one-page document exposing no metadata dictionary. -/
def no_meta_reader : PdfReader := { pages := [plain_page], metadata := none }

/-- A one-page document with the example metadata dictionary. -/
def one_page_reader : PdfReader :=
  { pages := [plain_page], metadata := some example_info }

/-- The per-page metadata record obtained when page 1 of `example_reader`
is extracted. -/
def example_page_md : MetaData :=
  { num_pages := 10, title := some "Example Title", author := some "Author Name"
    subject := some "Example Subject", producer := some "PDF Producer"
    creator := some "PDF Creator", page := some 1 }

/-- Whether the body of the page extractor's `try:` block fails for 0-based
index `pn`: the index is out of range, or `page.extract_text()` raises, or
some embedded image's write fails (which makes the image extractor raise
`ImageExtractionError`). -/
def try_block_fails (r : PdfReader) (pn : Nat) : Bool :=
  match r.pages[pn]? with
  | none => true
  | some page =>
    match page.extract_text with
    | .error _ => true
    | .ok _ => page.images.any (fun i => i.writeErr.isSome)

/-! ### Helper lemmas -/

/-- The metadata dictionary built from a reader never carries a `page` key. -/
lemma meta_from_reader_page_none (r : PdfReader) (md : MetaData)
    (h : meta_from_reader r = .ok md) : md.page = none := by
  unfold meta_from_reader at h
  cases hm : r.metadata with
  | none => simp [hm] at h
  | some d => simp [hm] at h; simp [← h]

/-- When every write succeeds, the image-extraction loop appends exactly the
expected files to the filesystem and returns the expected paths after the
accumulator. -/
lemma extract_image_loop_ok (storage_path : String) (imgs : List PdfImage)
    (h : ∀ i ∈ imgs, i.writeErr = none) :
    ∀ (count : Nat) (fs : FS) (acc : List String),
    extract_image_loop storage_path imgs count fs acc =
      (⟨fs.files ++ expected_image_files storage_path count imgs⟩,
        .ok (acc.reverse ++ expected_image_paths storage_path count imgs)) := by
  induction imgs with
  | nil =>
    intro count fs acc
    simp [extract_image_loop, expected_image_files, expected_image_paths]
  | cons img rest ih =>
    intro count fs acc
    have h1 : img.writeErr = none := h img (List.mem_cons_self _ _)
    have h2 : ∀ i ∈ rest, i.writeErr = none := fun i hi => h i (List.mem_cons_of_mem _ hi)
    simp only [extract_image_loop, h1, ih h2, expected_image_files,
      expected_image_paths, List.map_cons, List.reverse_cons, List.append_assoc,
      List.cons_append, List.nil_append]

/-- If some image's write fails, the image-extraction loop returns an
`ImageExtractionError` (whatever the filesystem state reached). -/
lemma extract_image_loop_any_err (storage_path : String) :
    ∀ (imgs : List PdfImage) (count : Nat) (fs : FS) (acc : List String),
    imgs.any (fun i => i.writeErr.isSome) = true →
    ∃ cause fs2, extract_image_loop storage_path imgs count fs acc =
      (fs2, .error (.imageExtractionError ("Error extracting image: " ++ cause))) := by
  intro imgs
  induction imgs with
  | nil => intro count fs acc h; simp at h
  | cons img rest ih =>
    intro count fs acc h
    cases hw : img.writeErr with
    | some c =>
      exact ⟨c, fs, by simp [extract_image_loop, hw]⟩
    | none =>
      have hrest : rest.any (fun i => i.writeErr.isSome) = true := by
        simp [List.any_cons, hw] at h
        simpa using h
      obtain ⟨cause, fs2, heq⟩ := ih (count + 1)
        ⟨fs.files ++ [(image_path storage_path count img.name, img.data)]⟩
        (image_path storage_path count img.name :: acc) hrest
      exact ⟨cause, fs2, by simp [extract_image_loop, hw, heq]⟩

/-- When every write before the failing image succeeds, the loop stops at the
failing image: the earlier files stay on disk and the error wraps the cause. -/
lemma extract_image_loop_err (storage_path : String) (pre : List PdfImage)
    (hpre : ∀ i ∈ pre, i.writeErr = none) (img : PdfImage) (cause : String)
    (himg : img.writeErr = some cause) (rest : List PdfImage) :
    ∀ (count : Nat) (fs : FS) (acc : List String),
    extract_image_loop storage_path (pre ++ img :: rest) count fs acc =
      (⟨fs.files ++ expected_image_files storage_path count pre⟩,
        .error (.imageExtractionError ("Error extracting image: " ++ cause))) := by
  induction pre with
  | nil =>
    intro count fs acc
    simp [extract_image_loop, himg, expected_image_files]
  | cons x xs ih =>
    intro count fs acc
    have h1 : x.writeErr = none := hpre x (List.mem_cons_self _ _)
    have h2 : ∀ i ∈ xs, i.writeErr = none := fun i hi => hpre i (List.mem_cons_of_mem _ hi)
    simp only [List.cons_append, extract_image_loop, h1, List.append_eq]
    rw [ih h2]
    simp [expected_image_files, List.append_assoc]

/-- For an open reader whose metadata dictionary could be built and a page
number `n >= 1`, the page extractor reduces to its `try:` block, run on the
0-based index with the metadata record's `page` key set. -/
lemma extract_page_open_reader (env : Env) (r : PdfReader) (md : MetaData)
    (n : Int) (storage_path : String) (fs : FS)
    (hmd : meta_from_reader r = .ok md) (hn : 1 ≤ n) :
    extract_data_from_page env (.reader r) n storage_path fs =
      extract_try_block r (n - 1).toNat storage_path
        { md with page := some (n - 1 + 1) } fs := by
  simp only [extract_data_from_page, hmd]
  rw [if_neg (by omega : ¬ (n - 1 < 0))]

/-! ### Claim theorems -/

/-- C2: the claim says a readable document without a metadata dictionary
yields a record whose fields are all absent. The code instead evaluates
`data.title` with `data = None`, raising `AttributeError`: this theorem
evaluates the code on any such document and shows the raised error. -/
theorem get_meta_missing_dictionary_raises (env : Env) (r : PdfReader)
    (h : r.metadata = none) :
    get_document_meta_data env (.reader r) =
      ([], .error (.attributeError "'NoneType' object has no attribute 'title'")) := by
  simp [get_document_meta_data, meta_from_reader, h]

/-- Witness for `get_meta_missing_dictionary_raises` at a concrete one-page
document with no metadata dictionary. -/
theorem get_meta_missing_dictionary_raises_witness :
    get_document_meta_data env_decode_fail (.reader no_meta_reader) =
      ([], .error (.attributeError "'NoneType' object has no attribute 'title'")) :=
  get_meta_missing_dictionary_raises env_decode_fail no_meta_reader rfl

/-- C3: for every readable document whose metadata dictionary is present, the
metadata extractor returns exactly the record whose `num_pages` field is the
document's number of pages and whose other fields are the dictionary's
values, raising nothing and printing nothing. -/
theorem get_meta_returns_exact_record (env : Env) (r : PdfReader) (d : DocInfo)
    (h : r.metadata = some d) :
    get_document_meta_data env (.reader r) =
      ([], .ok (some { num_pages := r.pages.length, title := d.title
                       author := d.author, subject := d.subject
                       producer := d.producer, creator := d.creator
                       page := none })) := by
  simp [get_document_meta_data, meta_from_reader, h]

/-- Witness for `get_meta_returns_exact_record` at the specification's
example: 10 pages, title `Example Title`, author `Author Name`, subject
`Example Subject`, producer `PDF Producer`, creator `PDF Creator`. -/
theorem get_meta_returns_exact_record_witness :
    get_document_meta_data env_decode_fail (.reader example_reader) =
      ([], .ok (some { num_pages := 10, title := some "Example Title"
                       author := some "Author Name", subject := some "Example Subject"
                       producer := some "PDF Producer", creator := some "PDF Creator"
                       page := none })) := by
  rw [get_meta_returns_exact_record env_decode_fail example_reader example_info rfl]
  rfl

/-- C5: for every page number `n < 1`, whatever the reader argument, the
environment and the filesystem, the page extractor raises
`ValueError("Page number should be greater than 0")` at once: the filesystem
is untouched and no diagnostic is printed, i.e. no document was opened, no
page read, no metadata extracted and no file written, and the error is not
caught. -/
theorem extract_page_invalid_number_raises (env : Env) (reader : DocArg)
    (n : Int) (storage_path : String) (fs : FS) (h : n < 1) :
    extract_data_from_page env reader n storage_path fs =
      (fs, [], .error (.valueError "Page number should be greater than 0")) := by
  simp only [extract_data_from_page]
  rw [if_pos (by omega)]

/-- Witness for `extract_page_invalid_number_raises` at page number 0. -/
theorem extract_page_invalid_number_raises_witness :
    extract_data_from_page env_decode_fail (.reader example_reader) 0 "st" ⟨[]⟩ =
      (⟨[]⟩, [], .error (.valueError "Page number should be greater than 0")) :=
  extract_page_invalid_number_raises env_decode_fail (.reader example_reader) 0 "st" ⟨[]⟩
    (by omega)

/-- C7: when every write succeeds, the image extractor writes image `i`
(0-based, in document order) to `storage_path/"{i}_{name_i}"` — those files,
with those bytes, are appended to the filesystem in that order — and returns
exactly those paths in the same order. -/
theorem extract_image_writes_indexed_paths (page : PdfPage) (storage_path : String)
    (fs : FS) (h : ∀ i ∈ page.images, i.writeErr = none) :
    extract_image page storage_path fs =
      (⟨fs.files ++ expected_image_files storage_path 0 page.images⟩,
        .ok (expected_image_paths storage_path 0 page.images)) := by
  have := extract_image_loop_ok storage_path page.images h 0 fs []
  simpa [extract_image] using this

/-- Witness for `extract_image_writes_indexed_paths`: a page with two images
`img1.png` and `img2.png` yields files `0_img1.png` then `1_img2.png` under
the storage directory and returns their paths in that order. -/
theorem extract_image_writes_indexed_paths_witness :
    extract_image two_image_page "st" ⟨[]⟩ =
      (⟨[("st/0_img1.png", "D1"), ("st/1_img2.png", "D2")]⟩,
        .ok ["st/0_img1.png", "st/1_img2.png"]) := by
  rw [extract_image_writes_indexed_paths two_image_page "st" ⟨[]⟩ (by decide)]
  rfl

/-- C8: if the writes before image `img` succeed and writing `img` fails with
`cause`, the image extractor raises `ImageExtractionError` wrapping `cause`
immediately — the result does not depend on the images after `img`, so no
later image is processed — and the filesystem keeps every file it already
held plus the earlier images' files: nothing is rolled back. -/
theorem extract_image_failure_keeps_earlier_files (page : PdfPage)
    (storage_path : String) (fs : FS) (pre : List PdfImage) (img : PdfImage)
    (rest : List PdfImage) (cause : String)
    (hsplit : page.images = pre ++ img :: rest)
    (hpre : ∀ i ∈ pre, i.writeErr = none)
    (himg : img.writeErr = some cause) :
    extract_image page storage_path fs =
      (⟨fs.files ++ expected_image_files storage_path 0 pre⟩,
        .error (.imageExtractionError ("Error extracting image: " ++ cause))) := by
  unfold extract_image
  rw [hsplit]
  exact extract_image_loop_err storage_path pre hpre img cause himg rest 0 fs []

/-- Witness for `extract_image_failure_keeps_earlier_files`: the second of
two images fails to write (read-only directory); the first image's file
`0_img1.png` remains on disk and an `ImageExtractionError` wrapping the cause
is raised. -/
theorem extract_image_failure_keeps_earlier_files_witness :
    extract_image bad_write_page "st" ⟨[]⟩ =
      (⟨[("st/0_img1.png", "D1")]⟩,
        .error (.imageExtractionError "Error extracting image: read-only file system")) := by
  rw [extract_image_failure_keeps_earlier_files bad_write_page "st" ⟨[]⟩
    [img1] img2_bad [] "read-only file system" rfl (by decide) rfl]
  rfl

/-- C10: the document reader raises
`FileNotFoundError("File {path} not found")` for a non-existent path — the
NotFound error is not softened — and for an existing path whose decode step
raises, it prints the diagnostic `Error reading document: {message}` and
returns `None`: the decode error is never propagated as a raised error. -/
theorem read_document_error_policy (env : Env) (p : String) (m : String) :
    (env.fsExists p = false →
      read_document env p =
        ([], .error (.fileNotFoundError ("File " ++ p ++ " not found")))) ∧
    (env.fsExists p = true → env.decode p = .error m →
      read_document env p = (["Error reading document: " ++ m], .ok none)) := by
  constructor
  · intro h
    simp [read_document, get_document, h]
  · intro h hd
    simp [read_document, get_document, h, hd]

/-- Witness for `read_document_error_policy`: under `env_decode_fail`,
`nope.pdf` does not exist and raises `FileNotFoundError`, while `doc.pdf`
exists but fails to decode and yields a printed diagnostic with `None`. -/
theorem read_document_error_policy_witness :
    read_document env_decode_fail "nope.pdf" =
      ([], .error (.fileNotFoundError "File nope.pdf not found")) ∧
    read_document env_decode_fail "doc.pdf" =
      (["Error reading document: bad xref"], .ok none) :=
  ⟨(read_document_error_policy env_decode_fail "nope.pdf" "bad xref").1 (by decide),
   (read_document_error_policy env_decode_fail "doc.pdf" "bad xref").2 (by decide) rfl⟩

/-- C1: the claim says a path to an existing file whose decode fails makes
the page extractor return `None` without raising. In the code,
`read_document` yields `None`, `get_document_meta_data(None)` returns `None`,
and then `meta_data['page'] = page_number + 1` raises `TypeError` on the
`NoneType`: for every page number `n >= 1` the call raises instead of
returning `None`. -/
theorem extract_page_decode_failure_raises_type_error (env : Env) (p m : String)
    (n : Int) (storage_path : String) (fs : FS)
    (hex : env.fsExists p = true) (hdec : env.decode p = .error m) (hn : 1 ≤ n) :
    extract_data_from_page env (.path p) n storage_path fs =
      (fs, ["Error reading document: " ++ m],
        .error (.typeError "'NoneType' object does not support item assignment")) := by
  have hlt : ¬ (n - 1 < 0) := by omega
  simp [extract_data_from_page, if_neg hlt, read_document, get_document, hex, hdec, hn]

/-- Witness for `extract_page_decode_failure_raises_type_error`: `doc.pdf`
exists under `env_decode_fail` but fails to decode; requesting page 1 raises
`TypeError` instead of returning the absent result. -/
theorem extract_page_decode_failure_raises_type_error_witness :
    extract_data_from_page env_decode_fail (.path "doc.pdf") 1 "st" ⟨[]⟩ =
      (⟨[]⟩, ["Error reading document: bad xref"],
        .error (.typeError "'NoneType' object does not support item assignment")) :=
  extract_page_decode_failure_raises_type_error env_decode_fail "doc.pdf" "bad xref"
    1 "st" ⟨[]⟩ (by decide) rfl (by omega)

/-- C4 counterexample: the claim quantifies over every requested page number,
but with an unavailable (`None`) handle and page number 0 the page extractor
raises `ValueError` — the `page_number < 1` check runs before the `None`
check — instead of returning the absent result. -/
theorem extract_page_none_page_zero_raises :
    extract_data_from_page env_decode_fail .noneV 0 "st" ⟨[]⟩ =
      (⟨[]⟩, [], .error (.valueError "Page number should be greater than 0")) ∧
    (extract_data_from_page env_decode_fail .noneV 0 "st" ⟨[]⟩).2.2 ≠ .ok none := by
  exact ⟨rfl, by decide⟩

/-- C4 (amended): given an unavailable handle (`None`), the metadata
extractor returns the absent result without raising, and the page extractor
does so for every page number `n >= 1` (for `n < 1` the `InvalidArgument`
error still takes precedence). -/
theorem unavailable_handle_soft_result (env : Env) (n : Int)
    (storage_path : String) (fs : FS) (hn : 1 ≤ n) :
    get_document_meta_data env .noneV = ([], .ok none) ∧
    extract_data_from_page env .noneV n storage_path fs = (fs, [], .ok none) := by
  have hlt : ¬ (n - 1 < 0) := by omega
  exact ⟨rfl, by simp [extract_data_from_page, if_neg hlt, hn]⟩

/-- Witness for `unavailable_handle_soft_result` at page number 3. -/
theorem unavailable_handle_soft_result_witness :
    get_document_meta_data env_decode_fail .noneV = ([], .ok none) ∧
    extract_data_from_page env_decode_fail .noneV 3 "st" ⟨[]⟩ = (⟨[]⟩, [], .ok none) :=
  unavailable_handle_soft_result env_decode_fail 3 "st" ⟨[]⟩ (by omega)

/-- C6: for an open reader whose metadata dictionary is present and a page
number `n >= 1`, whenever the `try:` block fails — page index out of range,
`extract_text` raising, or an image write failing (the image extractor's
`ImageExtractionError`) — the page extractor catches the error, prints the
single diagnostic `Error extracting text: {message}`, and returns the absent
result: no such error propagates out of `extract_data_from_page`. -/
theorem extract_page_catches_try_block_errors (env : Env) (r : PdfReader)
    (d : DocInfo) (n : Int) (storage_path : String) (fs : FS)
    (hm : r.metadata = some d) (hn : 1 ≤ n)
    (hf : try_block_fails r (n - 1).toNat = true) :
    ∃ m, (extract_data_from_page env (.reader r) n storage_path fs).2.1 =
        ["Error extracting text: " ++ m] ∧
      (extract_data_from_page env (.reader r) n storage_path fs).2.2 = .ok none := by
  have hmd : meta_from_reader r =
      .ok { num_pages := r.pages.length, title := d.title, author := d.author
            subject := d.subject, producer := d.producer, creator := d.creator
            page := none } := by
    simp [meta_from_reader, hm]
  rw [extract_page_open_reader env r _ n storage_path fs hmd hn]
  unfold try_block_fails at hf
  unfold extract_try_block
  cases hp : r.pages[(n - 1).toNat]? with
  | none =>
    simp only [hp] at hf ⊢
    exact ⟨(PyError.indexError "list index out of range").msg, rfl, trivial⟩
  | some page =>
    simp only [hp] at hf ⊢
    cases ht : page.extract_text with
    | error e =>
      simp only [ht] at hf ⊢
      exact ⟨e, rfl, trivial⟩
    | ok t =>
      simp only [ht] at hf ⊢
      obtain ⟨cause, fs2, heq⟩ :=
        extract_image_loop_any_err storage_path page.images 0 fs [] hf
      have heq2 : extract_image page storage_path fs =
          (fs2, .error (.imageExtractionError ("Error extracting image: " ++ cause))) := heq
      simp only [heq2]
      exact ⟨"Error extracting image: " ++ cause, rfl, trivial⟩

/-- Witness for `extract_page_catches_try_block_errors`: requesting page 2 of
the one-page document `one_page_reader` (index out of range) prints a
diagnostic and returns the absent result. -/
theorem extract_page_catches_try_block_errors_witness :
    ∃ m, (extract_data_from_page env_decode_fail (.reader one_page_reader) 2 "st" ⟨[]⟩).2.1 =
        ["Error extracting text: " ++ m] ∧
      (extract_data_from_page env_decode_fail (.reader one_page_reader) 2 "st" ⟨[]⟩).2.2 =
        .ok none :=
  extract_page_catches_try_block_errors env_decode_fail one_page_reader example_info
    2 "st" ⟨[]⟩ rfl (by omega) (by decide)

/-- C9: whenever the page extractor succeeds on an open reader for page
number `k >= 1`, the returned metadata record carries `page = k` (the
requested 1-based number) and, with its `page` field cleared, equals exactly
the document-level record the metadata extractor produces for the same
reader. -/
theorem extract_page_metadata_roundtrip (env : Env) (r : PdfReader) (k : Int)
    (storage_path : String) (fs : FS) (t : String) (imgs : List String)
    (md : MetaData) (hk : 1 ≤ k)
    (h : (extract_data_from_page env (.reader r) k storage_path fs).2.2 =
      .ok (some (t, imgs, md))) :
    md.page = some k ∧
      (get_document_meta_data env (.reader r)).2 = .ok (some { md with page := none }) := by
  have hlt : ¬ (k - 1 < 0) := by omega
  cases hmr : meta_from_reader r with
  | error e =>
    rw [show extract_data_from_page env (.reader r) k storage_path fs =
        (fs, [], .error e) from by
      simp only [extract_data_from_page, hmr]
      rw [if_neg hlt]] at h
    simp at h
  | ok md0 =>
    rw [extract_page_open_reader env r md0 k storage_path fs hmr hk] at h
    have hpage0 : md0.page = none := meta_from_reader_page_none r md0 hmr
    unfold extract_try_block at h
    cases hp : r.pages[(k - 1).toNat]? with
    | none => simp only [hp] at h; simp at h
    | some page =>
      simp only [hp] at h
      cases ht : page.extract_text with
      | error e => simp only [ht] at h; simp at h
      | ok text =>
        simp only [ht] at h
        cases hi : (extract_image page storage_path fs).2 with
        | error e => simp only [hi] at h; simp at h
        | ok images =>
          simp only [hi] at h
          simp only [Except.ok.injEq, Option.some.injEq, Prod.mk.injEq] at h
          obtain ⟨-, -, hmd⟩ := h
          subst hmd
          have hk1 : k - 1 + 1 = k := by omega
          refine ⟨by simp [hk1], ?_⟩
          simp only [get_document_meta_data, hmr]
          cases md0
          simp at hpage0
          simp [hpage0]

/-- Witness for `extract_page_metadata_roundtrip`: extracting page 1 of the
10-page example document succeeds and yields metadata with `page = 1` whose
other fields are the document-level record. -/
theorem extract_page_metadata_roundtrip_witness :
    example_page_md.page = some 1 ∧
      (get_document_meta_data env_decode_fail (.reader example_reader)).2 =
        .ok (some { example_page_md with page := none }) :=
  extract_page_metadata_roundtrip env_decode_fail example_reader 1 "st" ⟨[]⟩
    "hello" [] example_page_md (by omega) (by decide)

end DocumentProcessor
